import Mathlib

/-!
Shallow embedding of the MakeAnArgument RAG pipeline
(src/app/api/v1/main/route.ts and the arXiv fetch helper in src/unnamed/part_000).

External collaborators (the Gemini chat/embedding models, the Pinecone index,
the arXiv HTTP endpoint) are modelled as oracle functions collected in `Env`;
each may fail, mirroring a rejected promise.  Stage-by-stage control flow of
the `GET` handler is embedded as `runGET`, which also returns the trace of
pipeline stages that were invoked.  JavaScript numbers that only pass through
the pipeline (embedding components, similarity scores) are modelled as `Rat`.
-/

deriving instance DecidableEq for Except

/-- xml2js with `explicitArray: false` delivers a field either as a single
object or as an array, depending on cardinality. -/
inductive ScalarOrList (α : Type) where
  | scalar : α → ScalarOrList α
  | list : List α → ScalarOrList α
  deriving DecidableEq, Repr

/-- The `Array.isArray` test on a scalar-or-list value. -/
def ScalarOrList.isList {α : Type} : ScalarOrList α → Bool
  | .scalar _ => false
  | .list _ => true

/-- An `{ name }` author object from the parsed arXiv feed. -/
structure AuthorObj where
  name : String
  deriving DecidableEq, Repr

/-- A `{ $: { term } }` category object from the parsed arXiv feed. -/
structure CategoryObj where
  term : String
  deriving DecidableEq, Repr

/-- The `ArxivPaper` interface of route.ts: one parsed feed entry. -/
structure ArxivPaper where
  id : String
  title : String
  summary : String
  author : ScalarOrList AuthorObj
  category : ScalarOrList CategoryObj
  published : String
  deriving DecidableEq, Repr

/-- Embedding vectors only pass through the pipeline; components are `Rat`. -/
abbrev Embedding := List Rat

/-- The metadata map written with each Pinecone record in `upsertToPinecone`.
`categories` keeps the scalar-or-list shape the source computes
(`categories: string | string[]`). -/
structure RecordMetadata where
  title : String
  abstract : String
  authors : String
  categories : ScalarOrList String
  published : String
  deriving DecidableEq, Repr

/-- An `(id, values, metadata)` record passed to `index.upsert`. -/
structure PineconeRecord where
  id : String
  values : Embedding
  metadata : RecordMetadata
  deriving DecidableEq, Repr

/-- The request object passed to `index.query` in `performVectorSearch`. -/
structure QueryRequest where
  vector : Embedding
  topK : Nat
  includeMetadata : Bool
  includeValues : Bool
  deriving DecidableEq, Repr

/-- One match returned by the Pinecone query; `metadata` and `score` may be
absent, which `performVectorSearch` filters out. -/
structure QueryMatch where
  metadata : Option RecordMetadata
  score : Option Rat
  deriving DecidableEq, Repr

/-- The `RelevantPaper` interface of route.ts. -/
structure RelevantPaper where
  title : String
  abstract : String
  authors : String
  categories : ScalarOrList String
  published : String
  similarity : Rat
  deriving DecidableEq, Repr

/-- The JSON body of a successful `GET` response:
`NextResponse.json({ answer, keywords, papers })`. -/
structure ApiResponse where
  answer : String
  keywords : String
  papers : List ArxivPaper
  deriving DecidableEq, Repr

/-- The JSON body and status of the catch-all failure response. -/
structure ErrorResponse where
  error : String
  status : Nat
  deriving DecidableEq, Repr

/-- The single generic failure response produced by the route's catch block. -/
def errorResponse : ErrorResponse :=
  { error := "An error occurred while processing the request", status := 500 }

/-- Oracles for the external collaborators: the Gemini chat model, the Gemini
embedding model, the Pinecone index (upsert and query), and the arXiv fetch
(HTTP request plus XML parse, returning the optional `feed.entry` field).
`.error ()` models a rejected promise / thrown error. -/
structure Env where
  chat : String → Except Unit String
  embedContent : String → Except Unit Embedding
  upsert : List PineconeRecord → Except Unit Unit
  queryIndex : QueryRequest → Except Unit (List QueryMatch)
  fetchFeed : String → Except Unit (Option (ScalarOrList ArxivPaper))

/-- Pipeline stages, recorded in the order the route invokes them. -/
inductive Event where
  | interpret
  | fetch
  | index
  | search
  | synthFallback
  | synthGrounded
  deriving DecidableEq, Repr

/-- JavaScript `s || d` on the optional query parameter: `null` and the empty
string both fall back to the default. -/
def jsOrDefault (s : Option String) (d : String) : String :=
  match s with
  | none => d
  | some s => if s = "" then d else s

/-- The keyword-extraction prompt of `extractKeywords`. -/
def keywordsPrompt (query : String) : String :=
  "Extract 3-5 key terms or phrases from the following question and format them in the arXiv API query style: all:\"term1\" OR all:\"term2\" and so on. Ensure the output follows this exact format.\n\nQuestion: " ++ query

/-- The source's `extractKeywords`: one chat call; the raw completion text is the keywords. -/
def extractKeywords (env : Env) (query : String) : Except Unit String :=
  env.chat (keywordsPrompt query)

/-- The entry-normalization step of `fetchArxivPapers` in route.ts:
`if (!entries) return []; return Array.isArray(entries) ? entries : [entries]`. -/
def entriesToList (entries : Option (ScalarOrList ArxivPaper)) : List ArxivPaper :=
  match entries with
  | none => []
  | some (.scalar p) => [p]
  | some (.list ps) => ps

/-- The `fetchArxivPapers` of route.ts: HTTP fetch and XML parse (the collaborator
oracle), then entry normalization. -/
def fetchArxivPapers (env : Env) (keywords : String) :
    Except Unit (List ArxivPaper) :=
  match env.fetchFeed keywords with
  | .error e => .error e
  | .ok entries => .ok (entriesToList entries)

/-- The author normalization inside `upsertToPinecone`:
`Array.isArray(paper.author) ? paper.author.map(a => a.name).join(', ') : paper.author.name`. -/
def normalizeAuthors (author : ScalarOrList AuthorObj) : String :=
  match author with
  | .list as => String.intercalate ", " (as.map AuthorObj.name)
  | .scalar a => a.name

/-- The category normalization inside `upsertToPinecone`: a list maps each
object to its term; a scalar stays a plain term string. -/
def normalizeCategories (category : ScalarOrList CategoryObj) : ScalarOrList String :=
  match category with
  | .list cs => .list (cs.map CategoryObj.term)
  | .scalar c => .scalar c.term

/-- The metadata map built for one paper in `upsertToPinecone`. -/
def paperMetadata (paper : ArxivPaper) : RecordMetadata :=
  { title := paper.title
    abstract := paper.summary
    authors := normalizeAuthors paper.author
    categories := normalizeCategories paper.category
    published := paper.published }

/-- One element of `upsertPromises`: embed the paper's summary, then upsert
the record keyed by the paper's id.  Returns the record it wrote. -/
def indexOnePaper (env : Env) (paper : ArxivPaper) : Except Unit PineconeRecord :=
  match env.embedContent paper.summary with
  | .error e => .error e
  | .ok embedding =>
    match env.upsert
        [{ id := paper.id, values := embedding, metadata := paperMetadata paper }] with
    | .error e => .error e
    | .ok _ =>
      .ok { id := paper.id, values := embedding, metadata := paperMetadata paper }

/-- Model of `Promise.all`: succeeds with all results iff every operation succeeded. -/
def promiseAll {α : Type} : List (Except Unit α) → Except Unit (List α)
  | [] => .ok []
  | .error _ :: _ => .error ()
  | .ok a :: xs =>
    match promiseAll xs with
    | .ok as => .ok (a :: as)
    | .error _ => .error ()

/-- The source's `upsertToPinecone`: issue one independent embed+upsert operation per paper
and join on all of them. -/
def upsertToPinecone (env : Env) (papers : List ArxivPaper) :
    Except Unit (List PineconeRecord) :=
  promiseAll (papers.map (indexOnePaper env))

/-- The operations that completed successfully, whatever the overall join did:
these upserts are never rolled back. -/
def completedUpserts (env : Env) (papers : List ArxivPaper) : List PineconeRecord :=
  (papers.map (indexOnePaper env)).filterMap Except.toOption

/-- The query object built in `performVectorSearch`:
`{ vector, topK: 5, includeMetadata: true, includeValues: true }`. -/
def searchRequest (questionEmbedding : Embedding) : QueryRequest :=
  { vector := questionEmbedding
    topK := 5
    includeMetadata := true
    includeValues := true }

/-- The keep-filter of `performVectorSearch`:
`match.metadata && match.score !== undefined`. -/
def matchUsable (m : QueryMatch) : Bool :=
  m.metadata.isSome && m.score.isSome

/-- Placeholder metadata backing the non-null assertion `match.metadata!`;
only ever read behind the `matchUsable` filter. -/
def defaultMetadata : RecordMetadata :=
  { title := "", abstract := "", authors := "", categories := .list [], published := "" }

/-- The projection of one kept match to a `RelevantPaper`. -/
def matchToRelevant (m : QueryMatch) : RelevantPaper :=
  let md := m.metadata.getD defaultMetadata
  { title := md.title
    abstract := md.abstract
    authors := md.authors
    categories := md.categories
    published := md.published
    similarity := m.score.getD 0 }

/-- The pure tail of `performVectorSearch`: filter out malformed matches and
project the rest, in the order the index returned them. -/
def matchesToRelevant (ms : List QueryMatch) : List RelevantPaper :=
  (ms.filter matchUsable).map matchToRelevant

/-- The source's `performVectorSearch`: embed the question, query the index with the fixed
request, then filter and project the matches. -/
def performVectorSearch (env : Env) (query : String) :
    Except Unit (List RelevantPaper) :=
  match env.embedContent query with
  | .error e => .error e
  | .ok questionEmbedding =>
    match env.queryIndex (searchRequest questionEmbedding) with
    | .error e => .error e
    | .ok ms => .ok (matchesToRelevant ms)

/-- JavaScript template interpolation of a value that is either a string or an
array of strings (`Array.prototype.toString` joins with a comma). -/
def interpStringOrList (v : ScalarOrList String) : String :=
  match v with
  | .scalar s => s
  | .list ss => String.intercalate "," ss

/-- Left-pad a digit string with zeros to the given width. -/
def padZeros (s : String) (n : Nat) : String :=
  if s.length ≥ n then s else String.mk (List.replicate (n - s.length) '0') ++ s

/-- JavaScript `x.toFixed(4)`: fixed-point rendering with four fractional digits,
rounding halves up: the digits of `⌊x·10000 + 1/2⌋`, written directly on the
numerator and denominator so it evaluates by kernel reduction. -/
def toFixed4 (x : Rat) : String :=
  let n : Int := Int.fdiv (x.num * 20000 + (x.den : Int)) (2 * (x.den : Int))
  let sign := if n < 0 then "-" else ""
  let m := n.natAbs
  sign ++ toString (m / 10000) ++ "." ++ padZeros (toString (m % 10000)) 4

/-- The per-paper context block of `generateAnswer`'s template literal. -/
def matchBlock (paper : RelevantPaper) : String :=
  "Title: " ++ paper.title ++
  "\nAuthors: " ++ paper.authors ++
  "\nCategories: " ++ interpStringOrList paper.categories ++
  "\nPublished: " ++ paper.published ++
  "\nSimilarity: " ++ toFixed4 paper.similarity ++
  "\nAbstract: " ++ paper.abstract

/-- The context string of `generateAnswer`:
`relevantPapers.map(...).join('\n\n')`. -/
def answerContext (relevantPapers : List RelevantPaper) : String :=
  String.intercalate "\n\n" (relevantPapers.map matchBlock)

/-- The part of the grounded prompt before the context. -/
def groundedPromptPre (query : String) : String :=
  "You are an AI research assistant specializing in machine learning and time series forecasting. Answer the following question based on the provided research paper summaries. If the information is not sufficient, say so, but try to provide insights from what is available.\n\nQuestion: \"" ++ query ++ "\"\n\nContext (summaries of relevant papers, ordered by relevance):\n"

/-- The instruction block of the grounded prompt, after the context. -/
def groundedPromptPost : String :=
  "\n\nInstructions:\n1. Synthesize information from the provided papers to answer the question.\n2. Highlight any conflicting findings or perspectives from different papers.\n3. Mention any limitations or gaps in the current research related to the question.\n4. Suggest potential areas for further research based on the findings.\n5. Do not mention specific papers by title in your response, but integrate their insights.\n6. If you don't find enough relevant info, provide a general concise answer based on your understanding of the question.\n7. If you cannot provide an answer based on the provided context, give a general answer based on your understanding of the question.\n8. Don't repeat the question in your response.\n\nPlease provide a clear, concise, and informative answer:"

/-- The full prompt built by `generateAnswer`. -/
def generateAnswerPrompt (query : String) (relevantPapers : List RelevantPaper) :
    String :=
  groundedPromptPre query ++ answerContext relevantPapers ++ groundedPromptPost

/-- The source's `generateAnswer`: one chat call on the grounded prompt. -/
def generateAnswer (env : Env) (query : String)
    (relevantPapers : List RelevantPaper) : Except Unit String :=
  env.chat (generateAnswerPrompt query relevantPapers)

/-- The fallback prompt built by `generateNoResultsAnswer`. -/
def noResultsPrompt (query : String) : String :=
  "You are an AI research assistant. The following question was asked, but no relevant arXiv papers were found. Please provide a general response based on your knowledge:\n\nQuestion: \"" ++ query ++ "\"\n\nInstructions:\n1. Provide a brief, informative answer to the question based on general knowledge.\n2. Mention that no specific arXiv papers were found for this query.\n3. Suggest some related topics or areas that the user might want to explore instead.\n4. Don't repeat the question in your response.\n\nPlease provide a clear and helpful response:"

/-- The source's `generateNoResultsAnswer`: one chat call on the fallback prompt. -/
def generateNoResultsAnswer (env : Env) (query : String) : Except Unit String :=
  env.chat (noResultsPrompt query)

/-- The default of `searchParams.get('query') || "Can cows grow"`. -/
def userQueryOf (queryParam : Option String) : String :=
  jsOrDefault queryParam "Can cows grow"

/-- The `GET` handler: the whole pipeline, with its catch-all error handling,
together with the trace of stages invoked.  Each stage's event is recorded
when the stage is entered, whether or not its collaborator call succeeds. -/
def runGET (env : Env) (queryParam : Option String) :
    Except ErrorResponse ApiResponse × List Event :=
  match extractKeywords env (userQueryOf queryParam) with
  | .error _ => (.error errorResponse, [.interpret])
  | .ok keywords =>
    match fetchArxivPapers env keywords with
    | .error _ => (.error errorResponse, [.interpret, .fetch])
    | .ok papers =>
      if papers.length = 0 then
        match generateNoResultsAnswer env (userQueryOf queryParam) with
        | .error _ =>
          (.error errorResponse, [.interpret, .fetch, .synthFallback])
        | .ok noResultsAnswer =>
          (.ok { answer := noResultsAnswer, keywords := keywords, papers := [] },
            [.interpret, .fetch, .synthFallback])
      else
        match upsertToPinecone env papers with
        | .error _ => (.error errorResponse, [.interpret, .fetch, .index])
        | .ok _ =>
          match performVectorSearch env (userQueryOf queryParam) with
          | .error _ =>
            (.error errorResponse, [.interpret, .fetch, .index, .search])
          | .ok relevantPapers =>
            match generateAnswer env (userQueryOf queryParam) relevantPapers with
            | .error _ =>
              (.error errorResponse,
                [.interpret, .fetch, .index, .search, .synthGrounded])
            | .ok answer =>
              (.ok { answer := answer, keywords := keywords, papers := papers },
                [.interpret, .fetch, .index, .search, .synthGrounded])

/-!
The standalone arXiv fetch helper of src/unnamed/part_000.
-/

/-- The `link.$.href` object of a part_000 feed entry. -/
structure LinkObj where
  href : String
  deriving DecidableEq, Repr

/-- A feed entry as consumed by part_000's `processArxivResponse`. -/
structure PartEntry where
  id : String
  title : String
  summary : String
  author : ScalarOrList AuthorObj
  link : LinkObj
  deriving DecidableEq, Repr

/-- The flat paper record produced by part_000's `processArxivResponse`. -/
structure PartPaper where
  id : String
  title : String
  summary : String
  authors : String
  link : String
  deriving DecidableEq, Repr

/-- The per-entry projection inside part_000's `processArxivResponse`. -/
def mapPartEntry (entry : PartEntry) : PartPaper :=
  { id := entry.id
    title := entry.title
    summary := entry.summary
    authors := normalizeAuthors entry.author
    link := entry.link.href }

/-- part_000's `processArxivResponse`: absent `feed.entry` means zero results;
a scalar entry is wrapped into a one-element list; then each entry is mapped. -/
def processArxivResponse (entry : Option (ScalarOrList PartEntry)) :
    List PartPaper :=
  match entry with
  | none => []
  | some (.scalar e) => [mapPartEntry e]
  | some (.list es) => es.map mapPartEntry

/-!
Concrete sample data and collaborator environments, used to evaluate the
pipeline on closed inputs.
-/

/-- A well-formed sample paper with scalar author and scalar category. -/
def samplePaper : ArxivPaper :=
  { id := "http://arxiv.org/abs/1234.5678"
    title := "Sample"
    summary := "An abstract."
    author := .scalar { name := "Alice" }
    category := .scalar { term := "cs.AI" }
    published := "2024-01-01" }

/-- A sample paper whose abstract is missing (empty summary). -/
def paperNoAbstract : ArxivPaper :=
  { id := "http://arxiv.org/abs/0000.0000"
    title := "NoAbstract"
    summary := ""
    author := .scalar { name := "Bob" }
    category := .scalar { term := "cs.LG" }
    published := "2020-01-01" }

/-- Metadata of a usable sample match. -/
def goodMeta : RecordMetadata :=
  { title := "Sample"
    abstract := "An abstract."
    authors := "Alice"
    categories := .scalar "cs.AI"
    published := "2024-01-01" }

/-- A match with metadata and score: kept by the search filter. -/
def goodMatch : QueryMatch := { metadata := some goodMeta, score := some (mkRat 9 10) }

/-- A match with no metadata: dropped by the search filter. -/
def matchNoMeta : QueryMatch := { metadata := none, score := some (mkRat 8 10) }

/-- A match with no score: dropped by the search filter. -/
def matchNoScore : QueryMatch := { metadata := some goodMeta, score := none }

/-- An environment where every collaborator succeeds and the fetch finds no
entries (`feed.entry` omitted). -/
def envOkEmpty : Env :=
  { chat := fun _ => .ok "a general answer"
    embedContent := fun _ => .ok [1]
    upsert := fun _ => .ok ()
    queryIndex := fun _ => .ok []
    fetchFeed := fun _ => .ok none }

/-- An environment where every collaborator succeeds and the fetch returns a
single scalar entry. -/
def envOkFull : Env :=
  { chat := fun _ => .ok "a grounded answer"
    embedContent := fun _ => .ok [1]
    upsert := fun _ => .ok ()
    queryIndex := fun _ => .ok [goodMatch, matchNoMeta, matchNoScore]
    fetchFeed := fun _ => .ok (some (.scalar samplePaper)) }

/-- Like `envOkFull` but every index upsert is rejected. -/
def envIndexFail : Env :=
  { envOkFull with upsert := fun _ => .error () }

/-- Like `envOkFull` but every embedding call fails. -/
def envEmbedFail : Env :=
  { envOkFull with embedContent := fun _ => .error () }

/-- Like `envOkFull` but the similarity query returns only unusable matches,
so the filtered match list is empty. -/
def envNoUsableMatches : Env :=
  { envOkFull with queryIndex := fun _ => .ok [matchNoMeta, matchNoScore] }

/-- The record `indexOnePaper` writes for `samplePaper` under `envOkFull`. -/
def sampleRecord : PineconeRecord :=
  { id := samplePaper.id, values := [1], metadata := paperMetadata samplePaper }

/-!
Helper lemmas about the all-or-nothing join and the per-paper operations.
-/

lemma promiseAll_ok_forall {α : Type} {xs : List (Except Unit α)} {as : List α}
    (h : promiseAll xs = .ok as) : List.Forall₂ (fun x a => x = Except.ok a) xs as := by
  induction xs generalizing as with
  | nil =>
    simp only [promiseAll, Except.ok.injEq] at h
    subst h
    exact List.Forall₂.nil
  | cons x xs ih =>
    cases x with
    | error e => simp [promiseAll] at h
    | ok a =>
      cases hxs : promiseAll xs with
      | error e => simp [promiseAll, hxs] at h
      | ok bs =>
        simp only [promiseAll, hxs, Except.ok.injEq] at h
        subst h
        exact List.Forall₂.cons rfl (ih hxs)

lemma promiseAll_ok_length {α : Type} {xs : List (Except Unit α)} {as : List α}
    (h : promiseAll xs = .ok as) : as.length = xs.length :=
  ((promiseAll_ok_forall h).length_eq).symm

lemma promiseAll_error_of_mem {α : Type} {xs : List (Except Unit α)}
    (hmem : Except.error () ∈ xs) : promiseAll xs = .error () := by
  induction xs with
  | nil => simp at hmem
  | cons x xs ih =>
    rcases List.mem_cons.mp hmem with h | h
    · rw [← h]
      rfl
    · cases x with
      | error e => rfl
      | ok a => simp [promiseAll, ih h]

lemma indexOnePaper_id {env : Env} {p : ArxivPaper} {r : PineconeRecord}
    (h : indexOnePaper env p = .ok r) : r.id = p.id := by
  unfold indexOnePaper at h
  split at h
  · exact absurd h (by simp)
  · split at h
    · exact absurd h (by simp)
    · simp only [Except.ok.injEq] at h
      subst h
      rfl

/-- The per-match presentation described by the spec: title, authors,
categories, publication date, similarity score to four decimal places, and
abstract, in that order. -/
def specMatchBlock (p : RelevantPaper) : String :=
  "Title: " ++ p.title ++
  "\nAuthors: " ++ p.authors ++
  "\nCategories: " ++ interpStringOrList p.categories ++
  "\nPublished: " ++ p.published ++
  "\nSimilarity: " ++ toFixed4 p.similarity ++
  "\nAbstract: " ++ p.abstract

/-!
The claims.
-/

/-- C2: the indexer issues exactly one embed-and-upsert operation per paper
(no per-item retry); a successful join returns exactly one record per paper;
if any single operation fails the whole indexing step reports failure, never
success with fewer records; and an operation that completed stays among the
written records whatever the overall outcome (no rollback). -/
theorem indexing_all_or_nothing (env : Env) (papers : List ArxivPaper) :
    (papers.map (indexOnePaper env)).length = papers.length ∧
    (∀ rs, upsertToPinecone env papers = .ok rs → rs.length = papers.length) ∧
    (∀ p, p ∈ papers → indexOnePaper env p = .error () →
      upsertToPinecone env papers = .error ()) ∧
    (∀ p r, p ∈ papers → indexOnePaper env p = .ok r →
      r ∈ completedUpserts env papers) := by
  refine ⟨by simp, ?_, ?_, ?_⟩
  · intro rs h
    simpa using promiseAll_ok_length h
  · intro p hp herr
    unfold upsertToPinecone
    apply promiseAll_error_of_mem
    have hm := List.mem_map_of_mem (indexOnePaper env) hp
    rwa [herr] at hm
  · intro p r hp hok
    unfold completedUpserts
    refine List.mem_filterMap.mpr ⟨Except.ok r, ?_, rfl⟩
    have hm := List.mem_map_of_mem (indexOnePaper env) hp
    rwa [hok] at hm

/-- Witness for C2: one failing embedding fails the step for the sample paper,
and a completed upsert stays written. -/
theorem indexing_all_or_nothing_witness :
    upsertToPinecone envEmbedFail [samplePaper] = .error () ∧
    sampleRecord ∈ completedUpserts envOkFull [samplePaper] :=
  ⟨(indexing_all_or_nothing envEmbedFail [samplePaper]).2.2.1 samplePaper
      (List.mem_singleton.mpr rfl) (by decide),
   (indexing_all_or_nothing envOkFull [samplePaper]).2.2.2 samplePaper sampleRecord
      (List.mem_singleton.mpr rfl) (by decide)⟩

/-- C3: the corpus fetcher treats an omitted document-list field as zero
results rather than an error, and wraps a scalar single-document response into
a one-element list containing that document; part_000's
`processArxivResponse` behaves the same way. -/
theorem fetch_normalizes_missing_and_scalar_entries (env : Env) (kws : String)
    (hnone : env.fetchFeed kws = .ok none) :
    fetchArxivPapers env kws = .ok [] ∧
    entriesToList none = [] ∧
    (∀ p : ArxivPaper, entriesToList (some (.scalar p)) = [p]) ∧
    processArxivResponse none = [] ∧
    (∀ e : PartEntry, processArxivResponse (some (.scalar e)) = [mapPartEntry e]) := by
  refine ⟨?_, rfl, fun _ => rfl, rfl, fun _ => rfl⟩
  simp [fetchArxivPapers, hnone, entriesToList]

/-- Witness for C3: the empty-feed environment fetches an empty paper list. -/
theorem fetch_normalizes_missing_and_scalar_entries_witness :
    fetchArxivPapers envOkEmpty "kw" = .ok [] :=
  (fetch_normalizes_missing_and_scalar_entries envOkEmpty "kw" rfl).1

/-- C4 fails as stated: for the sample paper, whose category is scalar, the
indexed metadata keeps the scalar category shape instead of a one-element
list, and the author metadata is a flat joined string, not a list. -/
theorem scalar_category_not_widened :
    (paperMetadata samplePaper).categories = ScalarOrList.scalar "cs.AI" ∧
    ((paperMetadata samplePaper).categories).isList = false ∧
    (paperMetadata samplePaper).authors = "Alice" := by
  decide

/-- C4 (amended): before indexing, the author field is normalized to one
comma-separated string — a scalar author and the one-element list form yield
the same string — while the category field is mapped to its term strings
keeping its scalar-or-list shape, so a scalar category is not widened. -/
theorem author_category_normalization (a : AuthorObj) (c : CategoryObj)
    (cs : List CategoryObj) (p : ArxivPaper) :
    (paperMetadata { p with author := .scalar a }).authors =
      (paperMetadata { p with author := .list [a] }).authors ∧
    (paperMetadata { p with author := .scalar a }).authors = a.name ∧
    (paperMetadata { p with category := .scalar c }).categories =
      .scalar c.term ∧
    (paperMetadata { p with category := .list cs }).categories =
      .list (cs.map CategoryObj.term) :=
  ⟨rfl, rfl, rfl, rfl⟩

/-- C6: the similarity searcher queries with topK five and metadata
requested, silently filters out matches missing metadata or score, and maps
the surviving matches — a sublist of the response, in its original order. -/
theorem vector_search_top5_filter_order (env : Env) (q : String)
    (rel : List RelevantPaper) (h : performVectorSearch env q = .ok rel) :
    (∀ emb : Embedding, (searchRequest emb).topK = 5 ∧
      (searchRequest emb).includeMetadata = true) ∧
    ∃ emb ms, env.embedContent q = .ok emb ∧
      env.queryIndex (searchRequest emb) = .ok ms ∧
      rel = matchesToRelevant ms ∧
      matchesToRelevant ms = (ms.filter matchUsable).map matchToRelevant ∧
      (ms.filter matchUsable).Sublist ms := by
  refine ⟨fun emb => ⟨rfl, rfl⟩, ?_⟩
  unfold performVectorSearch at h
  split at h
  · exact absurd h (by simp)
  · rename_i emb he
    split at h
    · exact absurd h (by simp)
    · rename_i ms hm
      simp only [Except.ok.injEq] at h
      exact ⟨emb, ms, he, hm, h.symm, rfl, List.filter_sublist ms⟩

/-- Witness for C6: the fixed query parameters, via the sample search run. -/
theorem vector_search_top5_filter_order_witness :
    (searchRequest [1]).topK = 5 ∧ (searchRequest [1]).includeMetadata = true :=
  (vector_search_top5_filter_order envOkFull "q"
      (matchesToRelevant [goodMatch, matchNoMeta, matchNoScore]) rfl).1 [1]

/-- C7: for a non-empty match list, the grounded prompt is the fixed preamble,
then the matches presented in exactly the received order — each as title,
authors, categories, publication date, similarity to four decimal places,
and abstract — then the fixed instruction block. -/
theorem grounded_prompt_presents_matches_in_order (q : String)
    (ps : List RelevantPaper) (_hne : ps ≠ []) :
    generateAnswerPrompt q ps =
      groundedPromptPre q ++
        String.intercalate "\n\n" (ps.map specMatchBlock) ++
        groundedPromptPost :=
  rfl

/-- Witness for C7: the prompt decomposition at a concrete one-match list. -/
theorem grounded_prompt_presents_matches_in_order_witness :
    generateAnswerPrompt "q" [matchToRelevant goodMatch] =
      groundedPromptPre "q" ++
        String.intercalate "\n\n" ([matchToRelevant goodMatch].map specMatchBlock) ++
        groundedPromptPost :=
  grounded_prompt_presents_matches_in_order "q" [matchToRelevant goodMatch]
    (by decide)

/-- C8 fails as stated: the paper with no abstract is embedded and upserted
like any other — the indexer has no dropping step. -/
theorem no_abstract_paper_not_dropped :
    upsertToPinecone envOkFull [paperNoAbstract] =
      .ok [{ id := paperNoAbstract.id, values := [1],
             metadata := paperMetadata paperNoAbstract }] := by
  decide

/-- C8 (amended): no record is dropped before indexing — every fetched paper,
anomalous or not, yields exactly its own record on a successful indexing run,
keyed by its identifier. -/
theorem indexing_drops_no_paper (env : Env) (papers : List ArxivPaper)
    (rs : List PineconeRecord) (h : upsertToPinecone env papers = .ok rs) :
    rs.map PineconeRecord.id = papers.map ArxivPaper.id := by
  rw [upsertToPinecone] at h
  have hf := promiseAll_ok_forall h
  rw [List.forall₂_map_left_iff] at hf
  clear h
  induction hf with
  | nil => rfl
  | cons h₁ _ ih => simp [List.map, ih, indexOnePaper_id h₁]

/-- Witness for C8 (amended): the two-paper run writes records with exactly
the two paper identifiers. -/
theorem indexing_drops_no_paper_witness :
    ([sampleRecord,
      { id := paperNoAbstract.id, values := [1],
        metadata := paperMetadata paperNoAbstract }].map PineconeRecord.id) =
      ([samplePaper, paperNoAbstract].map ArxivPaper.id) :=
  indexing_drops_no_paper envOkFull [samplePaper, paperNoAbstract] _ (by decide)

/-- Every failure leaf of the pipeline returns the one generic error body. -/
lemma runGET_error_generic {env : Env} {q : Option String} {e : ErrorResponse}
    (h : (runGET env q).1 = .error e) : e = errorResponse := by
  cases hk : extractKeywords env (userQueryOf q) with
  | error e1 => simp only [runGET, hk] at h; simp_all
  | ok kws =>
    cases hf : fetchArxivPapers env kws with
    | error e1 => simp only [runGET, hk, hf] at h; simp_all
    | ok papers =>
      by_cases hlen : papers.length = 0
      · cases hg : generateNoResultsAnswer env (userQueryOf q) with
        | error e1 =>
          simp only [runGET, hk, hf, hlen, if_true, hg] at h; simp_all
        | ok ans =>
          simp only [runGET, hk, hf, hlen, if_true, hg] at h; simp_all
      · cases hu : upsertToPinecone env papers with
        | error e1 =>
          simp only [runGET, hk, hf, hlen, if_false, hu] at h; simp_all
        | ok rs =>
          cases hs : performVectorSearch env (userQueryOf q) with
          | error e1 =>
            simp only [runGET, hk, hf, hlen, if_false, hu, hs] at h; simp_all
          | ok rel =>
            cases hg : generateAnswer env (userQueryOf q) rel with
            | error e1 =>
              simp only [runGET, hk, hf, hlen, if_false, hu, hs, hg] at h
              simp_all
            | ok ans =>
              simp only [runGET, hk, hf, hlen, if_false, hu, hs, hg] at h
              simp_all

/-- C1: when the fetch yields an empty paper list the pipeline runs exactly
Interpret, Fetch, FallbackSynthesize — the Indexer and the Similarity Searcher
are never invoked — and when the fetch yields papers and the later stages
succeed it runs exactly Interpret, Fetch, Index, Search, GroundedSynthesize,
in that order. -/
theorem zero_results_short_circuit (env : Env) (q : Option String)
    (kws : String) (papers : List ArxivPaper)
    (hk : extractKeywords env (userQueryOf q) = .ok kws)
    (hf : fetchArxivPapers env kws = .ok papers) :
    (papers = [] →
      (runGET env q).2 = [.interpret, .fetch, .synthFallback] ∧
      Event.index ∉ (runGET env q).2 ∧
      Event.search ∉ (runGET env q).2) ∧
    (papers ≠ [] → ∀ rs rel ans,
      upsertToPinecone env papers = .ok rs →
      performVectorSearch env (userQueryOf q) = .ok rel →
      generateAnswer env (userQueryOf q) rel = .ok ans →
      (runGET env q).2 = [.interpret, .fetch, .index, .search, .synthGrounded]) := by
  constructor
  · rintro rfl
    have hev : (runGET env q).2 = [.interpret, .fetch, .synthFallback] := by
      simp only [runGET, hk, hf]
      cases hg : generateNoResultsAnswer env (userQueryOf q) <;> simp [hg]
    exact ⟨hev, by rw [hev]; decide, by rw [hev]; decide⟩
  · intro hne rs rel ans hu hs hg
    simp only [runGET, hk, hf, hu, hs, hg, List.length_eq_zero, hne, if_neg]
    simp

/-- Witness for C1: the empty-fetch environment takes the fallback path, the
one-paper environment takes the grounded path. -/
theorem zero_results_short_circuit_witness :
    (runGET envOkEmpty (some "cows")).2 = [.interpret, .fetch, .synthFallback] ∧
    (runGET envOkFull (some "cows")).2 =
      [.interpret, .fetch, .index, .search, .synthGrounded] :=
  ⟨((zero_results_short_circuit envOkEmpty (some "cows") "a general answer" []
      rfl rfl).1 rfl).1,
   (zero_results_short_circuit envOkFull (some "cows") "a grounded answer"
      [samplePaper] rfl rfl).2 (by decide) [sampleRecord]
      [matchToRelevant goodMatch] "a grounded answer" (by decide) (by decide) rfl⟩

/-- C5: a successful zero-papers run responds with the fallback text as
`answer`, the search expression as `keywords`, and an empty `papers` list;
the answer is non-empty whenever the fallback collaborator's text is. -/
theorem response_shape_zero_results (env : Env) (q : Option String)
    (kws ans : String)
    (hk : extractKeywords env (userQueryOf q) = .ok kws)
    (hf : fetchArxivPapers env kws = .ok [])
    (ha : generateNoResultsAnswer env (userQueryOf q) = .ok ans) :
    (runGET env q).1 = .ok { answer := ans, keywords := kws, papers := [] } ∧
    (ans ≠ "" → ∀ r, (runGET env q).1 = .ok r → r.answer ≠ "" ∧ r.papers = []) := by
  have hres : (runGET env q).1 =
      .ok { answer := ans, keywords := kws, papers := [] } := by
    simp [runGET, hk, hf, ha]
  refine ⟨hres, fun hne r hr => ?_⟩
  rw [hres] at hr
  simp only [Except.ok.injEq] at hr
  subst hr
  exact ⟨hne, rfl⟩

/-- Witness for C5: the empty-fetch environment produces the fallback
response with no papers. -/
theorem response_shape_zero_results_witness :
    (runGET envOkEmpty none).1 =
      .ok { answer := "a general answer", keywords := "a general answer",
            papers := [] } ∧
    ("a general answer" : String) ≠ "" :=
  ⟨(response_shape_zero_results envOkEmpty none "a general answer"
      "a general answer" rfl rfl rfl).1,
   ((response_shape_zero_results envOkEmpty none "a general answer"
      "a general answer" rfl rfl rfl).2 (by decide) _
      (response_shape_zero_results envOkEmpty none "a general answer"
        "a general answer" rfl rfl rfl).1).1⟩

/-- C9: the pipeline's outcome is either a success record or the single
generic failure body; in particular, when the fetch succeeded with papers but
the indexing stage fails, the caller receives only the generic failure —
never the already-fetched papers. -/
theorem generic_failure_response (env : Env) (q : Option String) :
    ((∃ r, (runGET env q).1 = .ok r) ∨ (runGET env q).1 = .error errorResponse) ∧
    (∀ kws papers, extractKeywords env (userQueryOf q) = .ok kws →
      fetchArxivPapers env kws = .ok papers → papers ≠ [] →
      upsertToPinecone env papers = .error () →
      (runGET env q).1 = .error errorResponse) := by
  constructor
  · cases hres : (runGET env q).1 with
    | ok r => exact Or.inl ⟨r, rfl⟩
    | error e =>
      exact Or.inr (congrArg Except.error (runGET_error_generic hres))
  · intro kws papers hk hf hne hu
    simp only [runGET, hk, hf, hu, List.length_eq_zero, hne, if_neg]
    simp

/-- Witness for C9: the failing-upsert environment yields the generic error
after a successful non-empty fetch. -/
theorem generic_failure_response_witness :
    (runGET envIndexFail (some "cows")).1 = .error errorResponse :=
  (generic_failure_response envIndexFail (some "cows")).2 "a grounded answer"
    [samplePaper] rfl rfl (by decide) (by decide)

/-- C10: the fallback stage is reached exactly when keyword extraction
succeeded and the fetch succeeded with zero papers; when the fetch is
non-empty but every similarity match was filtered out, the pipeline still
runs grounded synthesis on the empty context, never the fallback. -/
theorem fallback_iff_empty_fetch (env : Env) (q : Option String) :
    (Event.synthFallback ∈ (runGET env q).2 ↔
      ∃ kws papers, extractKeywords env (userQueryOf q) = .ok kws ∧
        fetchArxivPapers env kws = .ok papers ∧ papers = []) ∧
    (∀ kws papers rs ans,
      extractKeywords env (userQueryOf q) = .ok kws →
      fetchArxivPapers env kws = .ok papers → papers ≠ [] →
      upsertToPinecone env papers = .ok rs →
      performVectorSearch env (userQueryOf q) = .ok [] →
      generateAnswer env (userQueryOf q) [] = .ok ans →
      Event.synthGrounded ∈ (runGET env q).2 ∧
      Event.synthFallback ∉ (runGET env q).2 ∧
      (runGET env q).1 = .ok { answer := ans, keywords := kws, papers := papers }) := by
  constructor
  · constructor
    · intro hmem
      cases hk : extractKeywords env (userQueryOf q) with
      | error e => simp only [runGET, hk] at hmem; simp at hmem
      | ok kws =>
        cases hf : fetchArxivPapers env kws with
        | error e => simp only [runGET, hk, hf] at hmem; simp at hmem
        | ok papers =>
          by_cases hlen : papers.length = 0
          · exact ⟨kws, papers, rfl, hf, List.length_eq_zero.mp hlen⟩
          · exfalso
            simp only [runGET, hk, hf, hlen, if_false] at hmem
            cases hu : upsertToPinecone env papers with
            | error e => simp [hu] at hmem
            | ok rs =>
              cases hs : performVectorSearch env (userQueryOf q) with
              | error e => simp [hu, hs] at hmem
              | ok rel =>
                cases hg : generateAnswer env (userQueryOf q) rel with
                | error e => simp [hu, hs, hg] at hmem
                | ok ans => simp [hu, hs, hg] at hmem
    · rintro ⟨kws, papers, hk, hf, rfl⟩
      simp only [runGET, hk, hf]
      cases hg : generateNoResultsAnswer env (userQueryOf q) <;> simp [hg]
  · intro kws papers rs ans hk hf hne hu hs hg
    simp only [runGET, hk, hf, hu, hs, hg, List.length_eq_zero, hne, if_neg]
    simp

/-- Witness for C10: with a non-empty fetch whose matches are all filtered
out, the grounded path runs and the fallback does not. -/
theorem fallback_iff_empty_fetch_witness :
    Event.synthGrounded ∈ (runGET envNoUsableMatches (some "cows")).2 ∧
    Event.synthFallback ∉ (runGET envNoUsableMatches (some "cows")).2 :=
  ⟨((fallback_iff_empty_fetch envNoUsableMatches (some "cows")).2
      "a grounded answer" [samplePaper] [sampleRecord] "a grounded answer"
      rfl rfl (by decide) (by decide) (by decide) rfl).1,
   ((fallback_iff_empty_fetch envNoUsableMatches (some "cows")).2
      "a grounded answer" [samplePaper] [sampleRecord] "a grounded answer"
      rfl rfl (by decide) (by decide) (by decide) rfl).2.1⟩
